import Mathlib

/-
Verification of the Green Agent evaluation pipeline
(src/green/agent.py, src/green/executor.py, src/green/messenger.py,
src/green/models.py) against its natural-language specification.

The embedding is shallow: subprocess interaction is represented by an
explicit outcome value (completed with a return code, or timed out), the
filesystem seen by the task loader is represented by a record of optional
file contents, and the retrying client is driven by an explicit sequence
of per-attempt outcomes.  Floating point scores are modelled as rationals.
-/

namespace Green

/-- Evaluation track, the Literal["tdd", "bdd"] type of the source. -/
inductive Track where
  | tdd
  | bdd
deriving DecidableEq, Repr

/-- green/models.py TestExecutionResult: exit code, captured streams,
wall-clock time, pass flag and failure-type tag (kept as the literal
strings of the source). -/
structure TestExecutionResult where
  exit_code : Int
  stdout : String
  stderr : String
  execution_time : ℚ
  passed : Bool
  failure_type : String
deriving DecidableEq, Repr

/-- Outcome of the pytest subprocess launched by
green/agent.py execute_test_in_isolation: either it completed with a
return code and captured streams, or subprocess.TimeoutExpired was
raised carrying optional partial streams. -/
inductive SubprocessOutcome where
  | completed (returncode : Int) (stdout stderr : String)
  | timedOut (stdoutOpt stderrOpt : Option String)
deriving DecidableEq, Repr

/-- The stderr annotation appended on timeout
(green/agent.py line 187). -/
def timeoutAnnotation : String := "\nERROR: Test execution exceeded 30-second timeout"

/-- green/agent.py lines 200-207: classify failure type from the pytest
exit code (0 = passed, 1 = assertion failures, 2+ = infrastructure). -/
def classifyFailure (exit_code : Int) : String :=
  if exit_code == 0 then ("none")
  else if exit_code == 1 then ("assertion")
  else ("infrastructure")

/-- green/agent.py execute_test_in_isolation, lines 169-216, as a
function of the subprocess outcome and the elapsed wall-clock time.
On TimeoutExpired the source sets exit_code = 1, decodes the optional
streams (empty string when absent), appends the timeout annotation to
stderr and returns failure_type = "timeout"; otherwise it returns the
captured streams with failure_type classified from the exit code. -/
def execute_test_in_isolation (outcome : SubprocessOutcome) (elapsed : ℚ) :
    TestExecutionResult :=
  match outcome with
  | .timedOut so se =>
      { exit_code := 1
        stdout := so.getD ("")
        stderr := se.getD ("") ++ timeoutAnnotation
        execution_time := elapsed
        passed := false
        failure_type := ("timeout") }
  | .completed rc out err =>
      { exit_code := rc
        stdout := out
        stderr := err
        execution_time := elapsed
        passed := rc == 0
        failure_type := classifyFailure rc }

/-- C2: for every result of the runner, passed holds iff the exit code is
zero iff the failure type is "none"; and for completed (non-timeout)
subprocesses the failure type is exactly: exit 0 yields "none", exit 1
yields "assertion", every other exit yields "infrastructure". -/
theorem runner_outcome_classification (o : SubprocessOutcome) (t u : ℚ)
    (rc : Int) (out err : String) :
    (((execute_test_in_isolation o t).passed = true ↔
        (execute_test_in_isolation o t).exit_code = 0)
      ∧ ((execute_test_in_isolation o t).passed = true ↔
        (execute_test_in_isolation o t).failure_type = "none"))
    ∧ (execute_test_in_isolation (SubprocessOutcome.completed rc out err) u).failure_type
        = (if rc = 0 then ("none") else if rc = 1 then ("assertion")
           else ("infrastructure")) := by
  constructor
  · cases o with
    | timedOut so se =>
        simp [execute_test_in_isolation]
    | completed c o2 e2 =>
        simp only [execute_test_in_isolation, classifyFailure, beq_iff_eq]
        by_cases h0 : c = 0
        · simp [h0]
        · by_cases h1 : c = 1 <;> simp [h0, h1]
  · by_cases h0 : rc = 0
    · simp [execute_test_in_isolation, classifyFailure, h0]
    · by_cases h1 : rc = 1
      · simp [execute_test_in_isolation, classifyFailure, h0, h1]
      · simp [execute_test_in_isolation, classifyFailure, h0, h1]

/-- C5: on subprocess timeout the runner returns (raises nothing) a result
with passed = false, failure_type = "timeout", the timeout annotation
appended to the captured stderr, and execution_time equal to the elapsed
wall-clock time. -/
theorem runner_timeout_result (so se : Option String) (t : ℚ) :
    execute_test_in_isolation (SubprocessOutcome.timedOut so se) t
      = { exit_code := 1
          stdout := so.getD ("")
          stderr := se.getD ("") ++ "\nERROR: Test execution exceeded 30-second timeout"
          execution_time := t
          passed := false
          failure_type := ("timeout") } := rfl

/-- C10: a timed-out run reports exit_code = 1, the same exit code a
completed run with an assertion failure reports, so the two are
indistinguishable by exit_code alone and are separated only by their
failure_type tags. -/
theorem timeout_exit_code_indistinguishable (so se : Option String)
    (out err : String) (t u : ℚ) :
    (execute_test_in_isolation (SubprocessOutcome.timedOut so se) t).exit_code = 1
    ∧ (execute_test_in_isolation (SubprocessOutcome.completed 1 out err) u).exit_code = 1
    ∧ (execute_test_in_isolation (SubprocessOutcome.timedOut so se) t).failure_type
        = "timeout"
    ∧ (execute_test_in_isolation (SubprocessOutcome.completed 1 out err) u).failure_type
        = "assertion" := by
  refine ⟨rfl, rfl, rfl, ?_⟩
  simp [execute_test_in_isolation, classifyFailure]

/-- green/agent.py calculate_fault_detection_score, lines 263-293:
0.0 when either result is None, 1.0 when the tests passed the correct
implementation and failed the buggy one, 0.0 otherwise. -/
def calculate_fault_detection_score
    (correct_result buggy_result : Option TestExecutionResult) : ℚ :=
  match correct_result, buggy_result with
  | none, _ => 0
  | _, none => 0
  | some c, some b => if c.passed && !b.passed then 1 else 0

/-- C3: the per-task fault-detection score is 1.0 exactly when both
results are present, the correct-run passed, and the buggy-run failed;
in every other case, a missing result included, it is 0.0. -/
theorem fault_detection_score_spec
    (c b : Option TestExecutionResult) :
    (calculate_fault_detection_score c b = 1 ↔
      ∃ cr br, c = some cr ∧ b = some br ∧ cr.passed = true ∧ br.passed = false)
    ∧ (calculate_fault_detection_score c b = 0 ↔
      ¬ ∃ cr br, c = some cr ∧ b = some br ∧ cr.passed = true ∧ br.passed = false) := by
  cases c with
  | none => simp [calculate_fault_detection_score]
  | some cr =>
    cases b with
    | none => simp [calculate_fault_detection_score]
    | some br =>
      by_cases hc : cr.passed
      · by_cases hb : br.passed
        · simp [calculate_fault_detection_score, hc, hb]
        · simp [calculate_fault_detection_score, hc, hb]
      · simp [calculate_fault_detection_score, hc]

/-
Track dispatch in the test runner.  The public wrappers
execute_test_against_correct and execute_test_against_buggy
(green/agent.py lines 219-260) accept a track argument but invoke
execute_test_in_isolation(test_code, implementation, filename) -- an
internal function with no track parameter -- and the subprocess command
built at green/agent.py line 173 is always ["pytest", test_file, "-v"].
The records below embed exactly what the wrappers hand to the internal
runner and the command the runner executes.
-/

/-- Arguments the wrappers pass to execute_test_in_isolation; the
internal function has no track parameter in the source. -/
structure IsolationArgs where
  test_code : String
  implementation : String
  implementation_filename : String
deriving DecidableEq, Repr

/-- green/agent.py line 235: the call made by execute_test_against_correct. -/
def correct_call_args (test_code correct_implementation : String)
    (track : Track) : IsolationArgs :=
  { test_code := test_code
    implementation := correct_implementation
    implementation_filename := ("correct.py") }

/-- green/agent.py line 260: the call made by execute_test_against_buggy. -/
def buggy_call_args (test_code buggy_implementation : String)
    (track : Track) : IsolationArgs :=
  { test_code := test_code
    implementation := buggy_implementation
    implementation_filename := ("buggy.py") }

/-- green/agent.py line 173: the subprocess command is
["pytest", test_file, "-v"] on every path. -/
def pytest_command (test_file : String) : List String :=
  ["pytest", test_file, "-v"]

/-- C4: the code drops the track argument.  The arguments handed to the
internal runner are identical for the bdd and the tdd track, for both
wrappers, and the subprocess command never carries the plugin-load flag
"-p" (hence never loads pytest_bdd), contradicting the claimed BDD
dispatch. -/
theorem bdd_dispatch_missing (test_code impl : String) :
    correct_call_args test_code impl Track.bdd
        = correct_call_args test_code impl Track.tdd
    ∧ buggy_call_args test_code impl Track.bdd
        = buggy_call_args test_code impl Track.tdd
    ∧ pytest_command ("test_generated.py")
        = ["pytest", "test_generated.py", "-v"]
    ∧ "-p" ∉ pytest_command ("test_generated.py")
    ∧ "pytest_bdd" ∉ pytest_command ("test_generated.py") := by
  refine ⟨rfl, rfl, rfl, ?_, ?_⟩ <;> simp [pytest_command]

/-- Rounding to two decimal places, the round(x, 2) applied by the
composite-score operation. -/
def round2 (q : ℚ) : ℚ := (round (100 * q) : ℚ) / 100

/-- green/models.py CompositeScore: component scores and the weighted
composite. -/
structure CompositeScore where
  mutation_score : ℚ
  fault_detection_rate : ℚ
  score : ℚ
deriving DecidableEq, Repr

/-- Modelled from the spec: calculate_composite_score is imported by
src/green/executor.py from green.agent but its definition is absent from
src (only callers, its CompositeScore model and tests are present).  Spec
section 4.4: composite = round(0.60 * mutation_score
+ 0.40 * fault_detection_rate, 2), returned in a CompositeScore
alongside the two components. -/
def calculate_composite_score (mutation_score fault_detection_rate : ℚ) :
    CompositeScore :=
  { mutation_score := mutation_score
    fault_detection_rate := fault_detection_rate
    score := round2 (6/10 * mutation_score + 4/10 * fault_detection_rate) }

/-- green/agent.py aggregate_fault_detection_scores, lines 296-310:
arithmetic mean, 0.0 on the empty list. -/
def aggregate_fault_detection_scores (scores : List ℚ) : ℚ :=
  if scores = [] then 0 else scores.sum / scores.length

/-- green/models.py TaskDetail. -/
structure TaskDetail where
  task_id : String
  mutation_score : ℚ
  fault_detection_rate : ℚ
  composite_score : ℚ
  passed_correct : Bool
  failed_buggy : Bool
deriving DecidableEq, Repr

/-- Zero padding to width three, the 03d format of the task-id string. -/
def zeroPad3 (n : Nat) : String :=
  if n < 10 then "00" ++ toString n
  else if n < 100 then "0" ++ toString n
  else toString n

/-- executor.py line 87: task_id for loop index i is task_(i+1 padded). -/
def taskIdFor (i : Nat) : String := "task_" ++ zeroPad3 (i + 1)

/-- Data produced inside one successful iteration of the executor's
per-task try block: the two runner results and the mutation score the
mutation driver reported. -/
structure TaskRunData where
  correct_result : TestExecutionResult
  buggy_result : TestExecutionResult
  mutation_score : ℚ
deriving DecidableEq, Repr

/-- Observable outcome of one iteration of the executor's per-task loop:
either the whole try block succeeded with the given data, or task
loading, the Purple client call, or test execution raised (the except
branch at executor.py line 124). -/
inductive TaskStep where
  | ok (d : TaskRunData)
  | failed
deriving DecidableEq, Repr

/-- One iteration of the loop in GreenAgentExecutor.execute
(executor.py lines 86-137): on success the fault-detection score, the
per-task composite and the TaskDetail of lines 101-122; on any absorbed
exception the zero-valued TaskDetail and the two 0.0 score appends of
lines 126-137.  Returns (detail, fd score appended, mutation score
appended). -/
def runTask (i : Nat) (step : TaskStep) : TaskDetail × ℚ × ℚ :=
  match step with
  | .ok d =>
      let fd := calculate_fault_detection_score (some d.correct_result)
        (some d.buggy_result)
      let comp := calculate_composite_score d.mutation_score fd
      ({ task_id := taskIdFor i
         mutation_score := d.mutation_score
         fault_detection_rate := fd
         composite_score := comp.score
         passed_correct := d.correct_result.passed
         failed_buggy := !d.buggy_result.passed }, fd, d.mutation_score)
  | .failed =>
      ({ task_id := taskIdFor i
         mutation_score := 0
         fault_detection_rate := 0
         composite_score := 0
         passed_correct := false
         failed_buggy := false }, 0, 0)

/-- The executor's per-task loop from index i onward. -/
def runTasks (i : Nat) (steps : List TaskStep) : List (TaskDetail × ℚ × ℚ) :=
  match steps with
  | [] => []
  | s :: rest => runTask i s :: runTasks (i + 1) rest

/-- The run-level values the executor computes after the loop
(executor.py lines 139-158): aggregated fault-detection rate, average
mutation score, run-level composite and pass rate. -/
structure RunSummary where
  task_details : List TaskDetail
  fault_detection_rate : ℚ
  avg_mutation_score : ℚ
  score : ℚ
  pass_rate : ℚ
deriving DecidableEq, Repr

/-- GreenAgentExecutor.execute (executor.py lines 86-158) as a function
of the per-task step outcomes: run the loop, aggregate fault detection,
average the mutation scores, apply the composite formula to the
aggregates, and compute the pass rate. -/
def executorRun (steps : List TaskStep) : RunSummary :=
  let results := runTasks 0 steps
  let details := results.map (fun r => r.1)
  let fdScores := results.map (fun r => r.2.1)
  let mutScores := results.map (fun r => r.2.2)
  let fdRate := aggregate_fault_detection_scores fdScores
  let avgMut := if mutScores = [] then 0 else mutScores.sum / mutScores.length
  let comp := calculate_composite_score avgMut fdRate
  let passRate :=
    if details = [] then 0
    else ((details.filter (fun d => d.passed_correct && d.failed_buggy)).length : ℚ)
      / details.length
  { task_details := details
    fault_detection_rate := fdRate
    avg_mutation_score := avgMut
    score := comp.score
    pass_rate := passRate }

lemma runTasks_length (steps : List TaskStep) (i : Nat) :
    (runTasks i steps).length = steps.length := by
  induction steps generalizing i with
  | nil => rfl
  | cons s rest ih => simp [runTasks, ih]

lemma runTasks_getElem? (steps : List TaskStep) (i k : Nat) :
    (runTasks i steps)[k]? = (steps[k]?).map (fun s => runTask (i + k) s) := by
  induction steps generalizing i k with
  | nil => simp [runTasks]
  | cons s rest ih =>
    cases k with
    | zero => simp [runTasks]
    | succ k =>
      simp only [runTasks, List.getElem?_cons_succ, ih (i + 1) k]
      have h : i + 1 + k = i + (k + 1) := by omega
      rw [h]

lemma executorRun_details_getElem? (steps : List TaskStep) (k : Nat) :
    (executorRun steps).task_details[k]?
      = (steps[k]?).map (fun s => (runTask k s).1) := by
  simp only [executorRun, List.getElem?_map, runTasks_getElem?, Option.map_map,
    Nat.zero_add]
  rfl

/-- C1: the composite-score operation returns
round(0.60 * mutation + 0.40 * fault_detection, 2), and the executor
applies exactly this formula both run-level (its score is the formula on
its aggregate mutation score and fault-detection rate) and per task
(every recorded TaskDetail satisfies composite_score
= round2(0.6 * mutation + 0.4 * fault_detection)). -/
theorem executor_composite_formula (steps : List TaskStep) (k : Nat)
    (d : TaskDetail) (h : (executorRun steps).task_details[k]? = some d) :
    (∀ m f : ℚ, (calculate_composite_score m f).score
        = round2 (6/10 * m + 4/10 * f))
    ∧ (executorRun steps).score
        = round2 (6/10 * (executorRun steps).avg_mutation_score
            + 4/10 * (executorRun steps).fault_detection_rate)
    ∧ d.composite_score
        = round2 (6/10 * d.mutation_score + 4/10 * d.fault_detection_rate) := by
  refine ⟨fun m f => rfl, rfl, ?_⟩
  rw [executorRun_details_getElem?] at h
  cases hs : steps[k]? with
  | none => rw [hs] at h; simp at h
  | some s =>
    rw [hs] at h
    simp only [Option.map_some'] at h
    cases s with
    | ok dd =>
      rw [← Option.some_inj.mp h]
      rfl
    | failed =>
      rw [← Option.some_inj.mp h]
      simp [runTask, round2]

/-- A runner result of a passing run, used to instantiate the executor
theorems. -/
def passResult : TestExecutionResult :=
  { exit_code := 0
    stdout := "1 passed"
    stderr := ""
    execution_time := 1/10
    passed := true
    failure_type := ("none") }

/-- A runner result of an assertion-failing run, used to instantiate the
executor theorems. -/
def failResult : TestExecutionResult :=
  { exit_code := 1
    stdout := "1 failed"
    stderr := ""
    execution_time := 1/10
    passed := false
    failure_type := ("assertion") }

/-- A fully successful per-task step: tests pass on correct, fail on
buggy, mutation score one half. -/
def sampleStep : TaskStep :=
  TaskStep.ok
    { correct_result := passResult
      buggy_result := failResult
      mutation_score := 1/2 }

/-- The TaskDetail the executor records for sampleStep at index 0. -/
def sampleDetail : TaskDetail :=
  { task_id := "task_001"
    mutation_score := 1/2
    fault_detection_rate := 1
    composite_score := 7/10
    passed_correct := true
    failed_buggy := true }

/-- Witness for executor_composite_formula at one concrete run. -/
theorem executor_composite_formula_witness :
    sampleDetail.composite_score
      = round2 (6/10 * sampleDetail.mutation_score
          + 4/10 * sampleDetail.fault_detection_rate) :=
  (executor_composite_formula [sampleStep] 0 sampleDetail (by
    rw [executorRun_details_getElem?]
    norm_num [runTask, sampleStep, sampleDetail, passResult, failResult,
      calculate_fault_detection_score, calculate_composite_score, round2,
      taskIdFor, zeroPad3]
    decide)).2.2

/-- C7: a task whose try block raised (task loading, Purple client or
test execution) is absorbed: the executor records a zero-valued
TaskDetail at that task's index and still records one detail per task
(the run is not aborted). -/
theorem executor_absorbs_task_failures (steps : List TaskStep) (k : Nat)
    (h : steps[k]? = some TaskStep.failed) :
    (executorRun steps).task_details.length = steps.length
    ∧ (executorRun steps).task_details[k]?
        = some { task_id := taskIdFor k
                 mutation_score := 0
                 fault_detection_rate := 0
                 composite_score := 0
                 passed_correct := false
                 failed_buggy := false } := by
  constructor
  · simp [executorRun, runTasks_length]
  · rw [executorRun_details_getElem?, h]
    rfl

/-- Witness for executor_absorbs_task_failures: first task fails, second
succeeds; the run records two details and a zero-valued first detail. -/
theorem executor_absorbs_task_failures_witness :
    (executorRun [TaskStep.failed, sampleStep]).task_details.length
        = [TaskStep.failed, sampleStep].length
    ∧ (executorRun [TaskStep.failed, sampleStep]).task_details[0]?
        = some { task_id := taskIdFor 0
                 mutation_score := 0
                 fault_detection_rate := 0
                 composite_score := 0
                 passed_correct := false
                 failed_buggy := false } :=
  executor_absorbs_task_failures [TaskStep.failed, sampleStep] 0 (by decide)

/-
Purple Agent messenger (green/messenger.py).  One call to
_request_tests either returns test code (validated for syntax with
ast.parse), raises PurpleAgentError (no tests returned, or invalid
syntax), or raises a transport-level exception.  generate_tests loops
over range(max_retries), re-raises PurpleAgentError immediately, and on
any other exception records it and sleeps 2^attempt seconds when another
attempt remains; after exhaustion it raises PurpleAgentError naming the
final error.
-/

/-- Outcome of one attempt against the Purple agent: the task stream
produced tests (with the result of ast.parse on them: none = valid,
some e = SyntaxError with message e), produced no completed task with a
text artifact, or the transport raised. -/
inductive AttemptOutcome where
  | completedTests (tests : String) (parseFailure : Option String)
  | noTests
  | transportFailure (msg : String)
deriving DecidableEq, Repr

/-- Exceptions escaping _request_tests: PurpleAgentError or a
transport-level error. -/
inductive ReqError where
  | purple (msg : String)
  | transport (msg : String)
deriving DecidableEq, Repr

/-- green/messenger.py _request_tests (lines 86-104) together with
_validate_syntax (lines 77-84). -/
def request_tests : AttemptOutcome → Except ReqError String
  | .completedTests tests pf =>
      match pf with
      | none => .ok tests
      | some e => .error (.purple ("Invalid Python syntax in response: " ++ e))
  | .noTests => .error (.purple ("No tests returned from Purple Agent"))
  | .transportFailure m => .error (.transport m)

/-- The message of the PurpleAgentError raised after exhaustion
(green/messenger.py lines 151-153). -/
def failedMsg (maxRetries : Nat) (lastError : Option String) : String :=
  let base := "Failed after " ++ toString maxRetries ++ " attempts"
  match lastError with
  | none => base
  | some e => base ++ ": " ++ e

/-- Trace of one generate_tests call: its result (error = the message of
the PurpleAgentError raised) and the list of backoff delays slept, in
order. -/
structure GenTrace where
  result : Except String String
  sleeps : List Nat
deriving Repr

/-- The loop body of generate_tests (green/messenger.py lines 137-155)
with _retry_with_backoff (lines 106-112): fuel counts the attempts still
allowed by range(max_retries); a sleep of 2^attempt seconds happens only
when attempt < max_retries - 1. -/
def generateTestsGo (outcomes : Nat → AttemptOutcome) (maxRetries : Nat) :
    Nat → Nat → Option String → List Nat → GenTrace
  | _, 0, lastError, sleeps =>
      { result := .error (failedMsg maxRetries lastError), sleeps := sleeps }
  | attempt, fuel + 1, lastError, sleeps =>
      match request_tests (outcomes attempt) with
      | .ok tests => { result := .ok tests, sleeps := sleeps }
      | .error (.purple m) => { result := .error m, sleeps := sleeps }
      | .error (.transport m) =>
          generateTestsGo outcomes maxRetries (attempt + 1) fuel (some m)
            (if attempt < maxRetries - 1 then sleeps ++ [2 ^ attempt] else sleeps)

/-- green/messenger.py generate_tests (lines 114-155) driven by the
sequence of per-attempt outcomes; max_retries defaults to 3. -/
def generate_tests (outcomes : Nat → AttemptOutcome) (maxRetries : Nat) :
    GenTrace :=
  generateTestsGo outcomes maxRetries 0 maxRetries none []

/-- C6: with max_retries = 3, (i) a transport failure is retried: after a
first transport failure the client sleeps 1 second and the second
attempt's tests are returned; (ii) a syntactically invalid response
raises PurpleAgentError immediately, with no retry and no sleep; (iii)
when all three attempts fail at transport level the client sleeps 1 then
2 seconds (2^0, 2^1) and raises a PurpleAgentError naming the final
underlying error. -/
theorem generate_tests_retry_policy (e0 e1 e2 se tests : String)
    (rest : Nat → AttemptOutcome) :
    generate_tests (fun i =>
        if i = 0 then AttemptOutcome.transportFailure e0
        else AttemptOutcome.completedTests tests none) 3
      = { result := Except.ok tests, sleeps := [1] }
    ∧ generate_tests (fun i =>
        if i = 0 then AttemptOutcome.completedTests tests (some se)
        else rest i) 3
      = { result := Except.error ("Invalid Python syntax in response: " ++ se)
          sleeps := [] }
    ∧ generate_tests (fun i =>
        if i = 0 then AttemptOutcome.transportFailure e0
        else if i = 1 then AttemptOutcome.transportFailure e1
        else AttemptOutcome.transportFailure e2) 3
      = { result := Except.error ("Failed after 3 attempts: " ++ e2)
          sleeps := [1, 2] } :=
  ⟨rfl, rfl, rfl⟩

/-
Client caching (green/messenger.py lines 55-66).  The mutable state is
the dict self._clients keyed by URL; get_client connects and inserts
only when the URL is not yet a key, close clears the dict.  The
connectCount field counts underlying ClientFactory.connect calls.
-/

/-- Cache state of a PurpleAgentMessenger: the URLs currently cached and
the number of underlying connects performed so far. -/
structure MessengerState where
  clients : List String
  connectCount : Nat
deriving DecidableEq, Repr

/-- green/messenger.py _get_client (lines 55-62): connect and cache on
first access, reuse afterwards. -/
def get_client (s : MessengerState) (url : String) : MessengerState :=
  if url ∈ s.clients then s
  else { clients := s.clients ++ [url], connectCount := s.connectCount + 1 }

/-- green/messenger.py close (lines 64-66): empty the cache. -/
def closeClients (s : MessengerState) : MessengerState :=
  { clients := [], connectCount := s.connectCount }

/-- n sequential calls to get_client for the same URL. -/
def callN (s : MessengerState) (url : String) : Nat → MessengerState
  | 0 => s
  | n + 1 => callN (get_client s url) url n

lemma get_client_mem (s : MessengerState) (url : String) :
    url ∈ (get_client s url).clients := by
  by_cases h : url ∈ s.clients <;> simp [get_client, h]

lemma callN_cached (s : MessengerState) (url : String) (n : Nat)
    (h : url ∈ s.clients) : callN s url n = s := by
  induction n with
  | zero => rfl
  | succ n ih => simp [callN, get_client, h, ih]

/-- C8: starting from a cache without the URL, n >= 1 sequential
test-generation calls to that URL perform exactly one underlying
connect; close empties the cache, and the first call after close
connects again. -/
theorem client_cache_single_connect (s : MessengerState) (url : String)
    (n : Nat) (hn : 1 ≤ n) (h : url ∉ s.clients) :
    (callN s url n).connectCount = s.connectCount + 1
    ∧ (closeClients (callN s url n)).clients = []
    ∧ (get_client (closeClients (callN s url n)) url).connectCount
        = (callN s url n).connectCount + 1 := by
  obtain ⟨m, rfl⟩ : ∃ m, n = m + 1 := ⟨n - 1, by omega⟩
  have hstep : callN s url (m + 1) = get_client s url := by
    show callN (get_client s url) url m = get_client s url
    exact callN_cached _ _ _ (get_client_mem s url)
  refine ⟨?_, rfl, ?_⟩
  · rw [hstep]
    simp [get_client, h]
  · rw [hstep]
    simp [closeClients, get_client]

/-- Witness for client_cache_single_connect: three calls to one URL from
an empty cache connect once; the call after close connects a second
time. -/
theorem client_cache_single_connect_witness :
    (callN ⟨[], 0⟩ ("http://localhost:9010") 3).connectCount = 0 + 1
    ∧ (closeClients (callN ⟨[], 0⟩ ("http://localhost:9010") 3)).clients = []
    ∧ (get_client (closeClients (callN ⟨[], 0⟩ ("http://localhost:9010") 3))
        ("http://localhost:9010")).connectCount
        = (callN ⟨[], 0⟩ ("http://localhost:9010") 3).connectCount + 1 :=
  client_cache_single_connect ⟨[], 0⟩ ("http://localhost:9010") 3
    (by omega) (by simp)

/-
Task loader (green/agent.py load_task, lines 65-127).  The directory is
modelled as the optional contents of the files the loader reads;
metadata.json as the optional values of the two keys the loader gets
with metadata.get(key, "").
-/

/-- The two keys load_task reads from metadata.json, each possibly
absent (metadata.get defaults them to the empty string). -/
structure MetadataJson where
  task_id : Option String
  function_name : Option String
deriving DecidableEq, Repr

/-- Contents of a task directory as seen by load_task: none means the
file is missing or unreadable. -/
structure TaskDirFS where
  metadata : Option MetadataJson
  spec_py : Option String
  spec_feature : Option String
  correct_py : Option String
  buggy_py : Option String
deriving DecidableEq, Repr

/-- green/models.py Task. -/
structure Task where
  task_id : String
  function_name : String
  track : Track
  spec : String
  correct_implementation : String
  buggy_implementation : String
deriving DecidableEq, Repr

/-- green/agent.py load_task, lines 81-127: error on any missing file
(TaskLoadError naming it), metadata keys defaulted to the empty string,
spec file chosen by the requested track, and the Task built with the
passed-in track. -/
def load_task (fs : TaskDirFS) (track : Track) : Except String Task :=
  match fs.metadata with
  | none => .error ("Missing metadata.json")
  | some md =>
    match (match track with
           | Track.tdd => fs.spec_py
           | Track.bdd => fs.spec_feature) with
    | none =>
        .error (match track with
                | Track.tdd => ("Missing spec.py")
                | Track.bdd => ("Missing spec.feature"))
    | some spec =>
      match fs.correct_py with
      | none => .error ("Missing correct.py in implementation")
      | some correct =>
        match fs.buggy_py with
        | none => .error ("Missing buggy.py in implementation")
        | some buggy =>
          .ok { task_id := md.task_id.getD ("")
                function_name := md.function_name.getD ("")
                track := track
                spec := spec
                correct_implementation := correct
                buggy_implementation := buggy }

/-- A task directory whose metadata.json parses but carries neither
task_id nor function_name, with all required files present. -/
def emptyMetaFS : TaskDirFS :=
  { metadata := some { task_id := none, function_name := none }
    spec_py := some ("def f(x): pass")
    spec_feature := none
    correct_py := some ("def f(x): return x")
    buggy_py := some ("def f(x): return 0") }

/-- The Task the loader returns for emptyMetaFS. -/
def emptyFieldsTask : Task :=
  { task_id := ""
    function_name := ""
    track := Track.tdd
    spec := "def f(x): pass"
    correct_implementation := "def f(x): return x"
    buggy_implementation := "def f(x): return 0" }

/-- C9 counterexample: loading emptyMetaFS succeeds and returns a Task
whose task_id and function_name are the empty string, refuting the claim
that every returned Task has all fields non-empty. -/
theorem load_task_empty_fields_counterexample :
    load_task emptyMetaFS Track.tdd = Except.ok emptyFieldsTask
    ∧ emptyFieldsTask.task_id = ""
    ∧ emptyFieldsTask.function_name = "" :=
  ⟨rfl, rfl, rfl⟩

/-- C9 amended: every Task the loader returns has its track equal to the
requested track, unconditionally; and its fields are non-empty provided
metadata.json supplies non-empty task_id and function_name values and
the spec and implementation files present are non-empty; the loader
itself enforces no non-emptiness (missing metadata keys default to
empty strings). -/
theorem load_task_track_and_nonempty (fs : TaskDirFS) (tr : Track)
    (t : Task) (h : load_task fs tr = Except.ok t) :
    t.track = tr
    ∧ (∀ md tid fn, fs.metadata = some md →
        md.task_id = some tid → md.function_name = some fn →
        tid ≠ "" → fn ≠ "" →
        (∀ s, fs.spec_py = some s → s ≠ "") →
        (∀ s, fs.spec_feature = some s → s ≠ "") →
        (∀ s, fs.correct_py = some s → s ≠ "") →
        (∀ s, fs.buggy_py = some s → s ≠ "") →
        t.task_id ≠ "" ∧ t.function_name ≠ "" ∧ t.spec ≠ ""
        ∧ t.correct_implementation ≠ "" ∧ t.buggy_implementation ≠ "") := by
  obtain ⟨meta, sp, sf, cp, bp⟩ := fs
  cases meta with
  | none => simp [load_task] at h
  | some md =>
    cases tr with
    | tdd =>
      cases sp with
      | none => simp [load_task] at h
      | some spec =>
        cases cp with
        | none => simp [load_task] at h
        | some c =>
          cases bp with
          | none => simp [load_task] at h
          | some b =>
            simp only [load_task, Except.ok.injEq] at h
            subst h
            refine ⟨rfl, ?_⟩
            rintro md2 tid fn hmd htid hfn htid0 hfn0 hsp hsf hc hb
            obtain rfl : md = md2 := Option.some.inj hmd
            rw [htid, hfn]
            exact ⟨htid0, hfn0, hsp spec rfl, hc c rfl, hb b rfl⟩
    | bdd =>
      cases sf with
      | none => simp [load_task] at h
      | some spec =>
        cases cp with
        | none => simp [load_task] at h
        | some c =>
          cases bp with
          | none => simp [load_task] at h
          | some b =>
            simp only [load_task, Except.ok.injEq] at h
            subst h
            refine ⟨rfl, ?_⟩
            rintro md2 tid fn hmd htid hfn htid0 hfn0 hsp hsf hc hb
            obtain rfl : md = md2 := Option.some.inj hmd
            rw [htid, hfn]
            exact ⟨htid0, hfn0, hsf spec rfl, hc c rfl, hb b rfl⟩

/-- A fully populated TDD task directory. -/
def sampleFS : TaskDirFS :=
  { metadata := some { task_id := some ("task_001_example_function")
                       function_name := some ("example_function") }
    spec_py := some ("def example_function(x): pass")
    spec_feature := none
    correct_py := some ("def example_function(x): return 2 * x")
    buggy_py := some ("def example_function(x): return x + 2") }

/-- The Task the loader returns for sampleFS. -/
def sampleTask : Task :=
  { task_id := "task_001_example_function"
    function_name := "example_function"
    track := Track.tdd
    spec := "def example_function(x): pass"
    correct_implementation := "def example_function(x): return 2 * x"
    buggy_implementation := "def example_function(x): return x + 2" }

/-- Witness for load_task_track_and_nonempty at sampleFS: the track
matches unconditionally, and with the populated metadata and non-empty
files all fields are non-empty. -/
theorem load_task_track_and_nonempty_witness :
    sampleTask.track = Track.tdd ∧ sampleTask.task_id ≠ ""
    ∧ sampleTask.function_name ≠ "" ∧ sampleTask.spec ≠ ""
    ∧ sampleTask.correct_implementation ≠ ""
    ∧ sampleTask.buggy_implementation ≠ "" :=
  have H := load_task_track_and_nonempty sampleFS Track.tdd sampleTask rfl
  ⟨H.1, H.2
    { task_id := some ("task_001_example_function")
      function_name := some ("example_function") }
    ("task_001_example_function") ("example_function")
    rfl rfl rfl (by decide) (by decide)
    (by intro s hs; simp [sampleFS] at hs; subst hs; decide)
    (by intro s hs; simp [sampleFS] at hs)
    (by intro s hs; simp [sampleFS] at hs; subst hs; decide)
    (by intro s hs; simp [sampleFS] at hs; subst hs; decide)⟩

end Green
